import Mathlib

/-!
Shallow embedding of `src/lcpng_if_sync.c` (linux-cp interface state
synchronization plugin): the per-pair reconciliation engine
`lcp_itf_pair_sync_state`, its walking entry points, the event handlers,
the netlink transaction walk of `vnet_netlink_msg_send`, and the byte-level
netlink message builders (`vnet_netlink_msg_init`,
`vnet_netlink_msg_add_rtattr`, `vnet_netlink_del_ip4_addr`,
`vnet_netlink_del_ip6_addr`).

External collaborators (the vnet interface registry, the pair registry, the
kernel's netlink state, namespace file descriptors) are modelled as explicit
state inside a `World`; calls into them are recorded in an effect trace.
A `none` result of a transformer models a fatal fault (NULL dereference).
-/

set_option maxHeartbeats 1000000

/-- Protocol family selector (`fib_protocol_t`): `FIB_PROTOCOL_IP4` /
`FIB_PROTOCOL_IP6`. -/
inductive FibProto
  | ip4
  | ip6
deriving DecidableEq, Repr

/-- The fields of `vnet_sw_interface_t` read by this module: admin flags,
the L3 MTU (`mtu[VNET_MTU_L3]`), the superior (parent) interface index
`sup_sw_if_index`, the hardware interface index `hw_if_index`, whether the
interface is a sub-interface (`vnet_sw_interface_is_sub`), and `sub.id`. -/
structure SwInterface where
  flags : Nat
  mtuL3 : Nat
  sup_sw_if_index : Nat
  hw_if_index : Nat
  is_sub : Bool
  sub_id : Nat
deriving DecidableEq, Repr

/-- `VNET_SW_INTERFACE_FLAG_ADMIN_UP` -/
def VNET_SW_INTERFACE_FLAG_ADMIN_UP : Nat := 1

/-- The fields of `lcp_itf_pair_t` read by this module. `lip_namespace`
is an optional namespace name (`none` models a NULL pointer). -/
structure LcpItfPair where
  lip_phy_sw_if_index : Nat
  lip_host_sw_if_index : Nat
  lip_vif_index : Nat
  lip_namespace : Option String
  lip_host_name : String
deriving DecidableEq, Repr

/-- The field of `lcp_nl_table_t` read by `lcp_itf_ipX_table_bind`. -/
structure LcpNlTable where
  nlt_if_index : Nat
deriving DecidableEq, Repr

/-- `~0` as a u32, the sentinel checked against `nlt_if_index`. -/
def U32_MAX : Nat := 4294967295

/-- One observable call into an external collaborator or the kernel,
recorded in order of occurrence. -/
inductive Effect
  | setLinkState (hostSw : Nat) (state : Nat)
  | setSwMtu (swIfIndex : Nat) (mtu : Nat)
  | netlinkSetMtu (vifIndex : Nat) (mtu : Nat)
  | setIfAddrs (phySw : Nat)
  | setNetNs (ns : String)
  | netlinkAddrOp (isDel : Bool) (fam : FibProto) (vifIndex : Nat) (len : Nat)
  | nlTableFind (tableId : Nat) (fam : FibProto)
  | setLinkMaster (vifIndex : Nat) (master : String)
  | pairCreate (swIfIndex : Nat) (hostName : String) (ns : Option String)
  | pairDelete (swIfIndex : Nat)
deriving DecidableEq, Repr

/-- The state visible to the module: the two global toggles (`lcp_sync`,
`lcp_auto_subint`), the vnet software-interface registry, the hardware
interface registry and its sub-interface walk lists, the pair registry,
the kernel-side per-vif MTU (`none` models a failing
`vnet_netlink_get_link_mtu`), the process's active network namespace and
the outcome of namespace-handle opens, the FIB table environment, and the
trace of external calls made so far. -/
structure World where
  lcp_sync : Bool
  lcp_auto_subint : Bool
  sws : Nat → Option SwInterface
  hws : Nat → Bool
  hwSws : Nat → List Nat
  pairs : List LcpItfPair
  netlinkMtu : Nat → Option Nat
  activeNs : String
  nsSelfOpenOk : Bool
  nsOpenable : String → Bool
  fibTableId : Nat → FibProto → Nat
  nlTables : Nat → FibProto → Option LcpNlTable
  ifIndexToName : Nat → Option String
  trace : List Effect

/-- Append one external call to the trace. -/
def emit (w : World) (e : Effect) : World :=
  { w with trace := w.trace ++ [e] }

/-- `clib_setns` on an open handle: the process's active namespace becomes
the namespace the handle refers to. -/
def clib_setns (w : World) (h : String) : World :=
  { w with activeNs := h, trace := w.trace ++ [Effect.setNetNs h] }

/-- The namespace entry block shared by `lcp_itf_pair_sync_state` and the
address handlers (lines 56-62 of the source): when the pair has a
namespace, open a handle to the current namespace (`clib_netns_open
(NULL)`), open a handle to the target namespace, and switch only when the
target handle opened. A handle is modelled by the namespace it refers to;
`none` models fd `-1`. Returns the world and the two saved handles
`(curr_ns_fd, vif_ns_fd)`. -/
def ns_enter (w : World) (ns : Option String) :
    World × Option String × Option String :=
  match ns with
  | none => (w, none, none)
  | some s =>
    let curr := if w.nsSelfOpenOk then some w.activeNs else none
    let vif := if w.nsOpenable s then some s else none
    match vif with
    | some h => (clib_setns w h, curr, vif)
    | none => (w, curr, vif)

/-- The namespace exit block (lines 117-124): close the target handle, and
when the current-namespace handle was opened, switch back to it and close
it. Closing has no modelled effect. -/
def ns_exit (w : World) (curr _vif : Option String) : World :=
  match curr with
  | some h => clib_setns w h
  | none => w

/-- `vnet_sw_interface_set_mtu`: store the L3 MTU in the registry entry and
record the call. -/
def vnet_sw_interface_set_mtu (w : World) (i mtu : Nat) : World :=
  { w with
    sws := fun j =>
      if j = i then (w.sws j).map (fun s => { s with mtuL3 := mtu })
      else w.sws j,
    trace := w.trace ++ [Effect.setSwMtu i mtu] }

/-- `vnet_netlink_set_link_mtu`: the kernel applies the new MTU to the vif;
the call is recorded. -/
def vnet_netlink_set_link_mtu (w : World) (vif mtu : Nat) : World :=
  { w with
    netlinkMtu := fun v => if v = vif then some mtu else w.netlinkMtu v,
    trace := w.trace ++ [Effect.netlinkSetMtu vif mtu] }

/-- The effective-MTU computation of `lcp_itf_pair_sync_state`
(lines 88-99): start from the physical L3 MTU, inherit the parent's when
zero, then clamp to the parent's when the parent's is below the physical
interface's. -/
def sync_state_mtu (sw sup : SwInterface) : Nat :=
  let mtu := sw.mtuL3
  let mtu := if mtu = 0 then sup.mtuL3 else mtu
  if sup.mtuL3 < sw.mtuL3 then sup.mtuL3 else mtu

/-- The admin-state computation of `lcp_itf_pair_sync_state`
(lines 71-80): the physical admin-up bit, forced to 0 when set while the
parent's admin-up bit is clear. -/
def sync_state_link (sw sup : SwInterface) : Nat :=
  let state := sw.flags &&& VNET_SW_INTERFACE_FLAG_ADMIN_UP
  if state ≠ 0 ∧ sup.flags &&& VNET_SW_INTERFACE_FLAG_ADMIN_UP = 0 then 0
  else state

/-- The body of `lcp_itf_pair_sync_state` between namespace entry and exit
(lines 64-115), with `sw` and `sup_sw` already fetched: push the computed
link state to the mirror (`lcp_itf_set_link_state`), set the effective MTU
on the physical and the host interface, push it over netlink only when the
netlink query succeeds and reports a different value, then re-sync all
addresses (`lcp_itf_set_interface_addr`). -/
def sync_state_core (w : World) (lip : LcpItfPair) (sw sup : SwInterface) :
    World :=
  let w := emit w (Effect.setLinkState lip.lip_host_sw_if_index
    (sync_state_link sw sup))
  let mtu := sync_state_mtu sw sup
  let w := vnet_sw_interface_set_mtu w lip.lip_phy_sw_if_index mtu
  let w := vnet_sw_interface_set_mtu w lip.lip_host_sw_if_index mtu
  let w :=
    match w.netlinkMtu lip.lip_vif_index with
    | some q => if q ≠ mtu then vnet_netlink_set_link_mtu w lip.lip_vif_index mtu
                else w
    | none => w
  emit w (Effect.setIfAddrs lip.lip_phy_sw_if_index)

/-- `lcp_itf_pair_sync_state` (lines 36-127): no-op when sync is disabled
or the physical interface does not resolve; fetch the parent with
`vnet_get_sw_interface_or_null`, enter the pair's namespace, and then
dereference the parent without a NULL check (lines 64-99): a missing
parent is a fatal fault, modelled by `none`. -/
def lcp_itf_pair_sync_state (w : World) (lip : LcpItfPair) : Option World :=
  if !w.lcp_sync then some w
  else
    match w.sws lip.lip_phy_sw_if_index with
    | none => some w
    | some sw =>
      let supOpt := w.sws sw.sup_sw_if_index
      let r := ns_enter w lip.lip_namespace
      match supOpt with
      | none => none
      | some sup => some (ns_exit (sync_state_core r.1 lip sw sup) r.2.1 r.2.2)

/-- `lcp_itf_pair_find_by_phy` composed with `lcp_itf_pair_get`: resolve
the pair whose physical interface is `i`. -/
def lcp_itf_pair_find_by_phy (w : World) (i : Nat) : Option LcpItfPair :=
  w.pairs.find? (fun p => p.lip_phy_sw_if_index == i)

/-- The walk body of `lcp_itf_pair_sync_state_all`
(`lcp_itf_pair_walk_sync_state_all_cb`): sync every pair in turn,
propagating a fatal fault. -/
def walk_pairs : World → List LcpItfPair → Option World
  | w, [] => some w
  | w, p :: rest =>
    match lcp_itf_pair_sync_state w p with
    | some w2 => walk_pairs w2 rest
    | none => none

/-- `lcp_itf_pair_sync_state_all` (lines 157-161). -/
def lcp_itf_pair_sync_state_all (w : World) : Option World :=
  walk_pairs w w.pairs

/-- The walk body of `lcp_itf_pair_sync_state_hw`
(`lcp_itf_pair_walk_sync_state_hw_cb`, lines 141-155): for each
sub-interface of the hardware interface, sync its pair when one exists. -/
def walk_hw_sws : World → List Nat → Option World
  | w, [] => some w
  | w, i :: rest =>
    match lcp_itf_pair_find_by_phy w i with
    | none => walk_hw_sws w rest
    | some lip =>
      match lcp_itf_pair_sync_state w lip with
      | some w2 => walk_hw_sws w2 rest
      | none => none

/-- `lcp_itf_pair_sync_state_hw` (lines 163-173): nothing when `hi` is
NULL, otherwise walk the hardware interface's software interfaces. -/
def lcp_itf_pair_sync_state_hw (w : World) (hi : Option Nat) : Option World :=
  match hi with
  | none => some w
  | some h => walk_hw_sws w (w.hwSws h)

/-- `vnet_sw_interface_is_sub`. -/
def vnet_sw_interface_is_sub (w : World) (i : Nat) : Bool :=
  match w.sws i with
  | some s => s.is_sub
  | none => false

/-- `lcp_itf_admin_state_change` (lines 175-219): with sync enabled and a
pair resolved on the interface itself, a sub-interface syncs its own pair;
otherwise the software and hardware interfaces are resolved and all the
hardware interface's children are synced. -/
def lcp_itf_admin_state_change (w : World) (sw_if_index _flags : Nat) :
    Option World :=
  if !w.lcp_sync then some w
  else
    match lcp_itf_pair_find_by_phy w sw_if_index with
    | none => some w
    | some lip =>
      if vnet_sw_interface_is_sub w sw_if_index then
        lcp_itf_pair_sync_state w lip
      else
        match w.sws sw_if_index with
        | none => some w
        | some si =>
          if w.hws si.hw_if_index then
            lcp_itf_pair_sync_state_hw w (some si.hw_if_index)
          else some w

/-- `lcp_itf_mtu_change` (lines 223-262): same branching as the admin-state
handler, with the pair looked up only in the sub-interface branch. -/
def lcp_itf_mtu_change (w : World) (sw_if_index _flags : Nat) : Option World :=
  if !w.lcp_sync then some w
  else
    if vnet_sw_interface_is_sub w sw_if_index then
      match lcp_itf_pair_find_by_phy w sw_if_index with
      | none => some w
      | some lip => lcp_itf_pair_sync_state w lip
    else
      match w.sws sw_if_index with
      | none => some w
      | some si =>
        if w.hws si.hw_if_index then
          lcp_itf_pair_sync_state_hw w (some si.hw_if_index)
        else some w

/-- `lcp_itf_ip4_add_del_interface_addr` (lines 403-450): gated on
`lcp_sync`, resolves the pair, enters the pair's namespace, issues the
netlink add/del IPv4 address transaction, restores the namespace. -/
def lcp_itf_ip4_add_del_interface_addr (w : World) (sw_if_index : Nat)
    (address_length : Nat) (is_del : Bool) : World :=
  if !w.lcp_sync then w
  else
    match lcp_itf_pair_find_by_phy w sw_if_index with
    | none => w
    | some lip =>
      match ns_enter w lip.lip_namespace with
      | (w1, curr, vif) =>
        let w2 := emit w1 (Effect.netlinkAddrOp is_del FibProto.ip4
          lip.lip_vif_index address_length)
        ns_exit w2 curr vif

/-- `lcp_itf_ip6_add_del_interface_addr` (lines 452-496). -/
def lcp_itf_ip6_add_del_interface_addr (w : World) (sw_if_index : Nat)
    (address_length : Nat) (is_del : Bool) : World :=
  if !w.lcp_sync then w
  else
    match lcp_itf_pair_find_by_phy w sw_if_index with
    | none => w
    | some lip =>
      match ns_enter w lip.lip_namespace with
      | (w1, curr, vif) =>
        let w2 := emit w1 (Effect.netlinkAddrOp is_del FibProto.ip6
          lip.lip_vif_index address_length)
        ns_exit w2 curr vif

/-- `lcp_itf_ipX_table_bind` (lines 499-547, compiled under
`LCP_HAVE_VRF_SYNC`): with sync enabled and a pair resolved, a nonzero new
table id looks up the host-side table device with `lcp_nl_table_find
(new_table_id, FIB_PROTOCOL_IP4)` — the family argument is the literal
IPv4 constant — and sets the mirror's link master to that device's name;
table id zero clears the master. The record lookup call is traced. -/
def lcp_itf_ipX_table_bind (w : World) (proto : FibProto)
    (sw_if_index new_fib_index _old_fib_index : Nat) : World :=
  if !w.lcp_sync then w
  else
    let new_table_id := w.fibTableId new_fib_index proto
    match lcp_itf_pair_find_by_phy w sw_if_index with
    | none => w
    | some lip =>
      if new_table_id ≠ 0 then
        let w := emit w (Effect.nlTableFind new_table_id FibProto.ip4)
        match w.nlTables new_table_id FibProto.ip4 with
        | none => w
        | some nlt =>
          if nlt.nlt_if_index = U32_MAX then w
          else
            match w.ifIndexToName nlt.nlt_if_index with
            | none => w
            | some name =>
              emit w (Effect.setLinkMaster lip.lip_vif_index name)
      else
        emit w (Effect.setLinkMaster lip.lip_vif_index "")

/-- `lcp_itf_interface_add_del` (lines 582-632): gated on
`lcp_auto_subint` (not on `lcp_sync`); only sub-interfaces are handled; on
create, when the parent has a pair, a pair is auto-created named
`<parent-host-name>.<sub-id>` in the parent's namespace; on delete the
sub-interface's pair is deleted. -/
def lcp_itf_interface_add_del (w : World) (sw_if_index : Nat)
    (is_create : Bool) : World :=
  if !w.lcp_auto_subint then w
  else
    match w.sws sw_if_index with
    | none => w
    | some sw =>
      if !vnet_sw_interface_is_sub w sw_if_index then w
      else
        if is_create then
          match lcp_itf_pair_find_by_phy w sw.sup_sw_if_index with
          | none => w
          | some sup_lip =>
            emit w (Effect.pairCreate sw_if_index
              (sup_lip.lip_host_name ++ "." ++ toString sw.sub_id)
              sup_lip.lip_namespace)
        else
          emit w (Effect.pairDelete sw_if_index)

/-! ### Netlink transaction model (`vnet_netlink_msg_send`, lines 301-356) -/

/-- One message of the received reply buffer, as classified by the walk:
the end marker `NLMSG_DONE`, an `NLMSG_ERROR` record carrying the in-band
error code, or any other message (its raw bytes). -/
inductive NlReply
  | done
  | err (code : Int)
  | other (raw : List Nat)
deriving DecidableEq, Repr

/-- The result of `vnet_netlink_msg_send`, mirroring the distinct
`clib_error_return` sites: success (NULL error), the four syscall
failures, and the in-band netlink protocol failure. -/
inductive SendResult
  | ok
  | sockErr
  | bindErr
  | sendErr
  | recvErr
  | netlinkErr (code : Int)
deriving DecidableEq, Repr

/-- The syscall outcomes of one transaction: whether `socket`, `bind` and
`send` succeed, and the reply buffer `recv` returns (`none` = `recv`
failed). -/
structure SendEnv where
  socketOk : Bool
  bindOk : Bool
  sendOk : Bool
  recvResult : Option (List NlReply)
deriving DecidableEq, Repr

/-- The reply walk of `vnet_netlink_msg_send` (lines 328-350):
`NLMSG_DONE` jumps to `done` with the error accumulated so far;
`NLMSG_ERROR` with a nonzero code replaces it by a protocol error and
jumps to `done` (code zero keeps the accumulated error); any other message
is appended to the reply collection when one was requested, and the walk
continues; running off the end of the buffer falls through to `done`. -/
def nl_reply_walk (collect : Bool) :
    List NlReply → SendResult → List (List Nat) →
    SendResult × List (List Nat)
  | [], acc, rs => (acc, rs)
  | NlReply.done :: _, acc, rs => (acc, rs)
  | NlReply.err c :: _, acc, rs =>
    (if c ≠ 0 then SendResult.netlinkErr c else acc, rs)
  | NlReply.other raw :: rest, acc, rs =>
    nl_reply_walk collect rest acc (if collect then rs ++ [raw] else rs)

/-- `vnet_netlink_msg_send` (lines 301-356): fail on `socket` or `bind`;
a failed `send` records an error but the function still proceeds to
`recv`; a failed `recv` overwrites the error; otherwise the reply buffer
is walked. Returns the error outcome and the collected replies. -/
def vnet_netlink_msg_send (env : SendEnv) (collect : Bool) :
    SendResult × List (List Nat) :=
  if !env.socketOk then (SendResult.sockErr, [])
  else if !env.bindOk then (SendResult.bindErr, [])
  else
    let err0 := if env.sendOk then SendResult.ok else SendResult.sendErr
    match env.recvResult with
    | none => (SendResult.recvErr, [])
    | some msgs => nl_reply_walk collect msgs err0 []

/-! ### Byte-level netlink message construction (lines 266-400)

A message buffer is a list of bytes; `none` models a byte the builder
leaves uninitialized (`vec_add2` does not zero fresh space, and only the
named header fields and copied payloads are written). -/

/-- `NLMSG_ALIGN`: round up to the 4-byte netlink alignment. -/
def nlmsg_align (n : Nat) : Nat := (n + 3) / 4 * 4

/-- `NLMSG_HDRLEN`: the aligned size of `struct nlmsghdr` (16 bytes:
u32 `nlmsg_len`, u16 `nlmsg_type`, u16 `nlmsg_flags`, u32 `nlmsg_seq`,
u32 `nlmsg_pid`). -/
def NLMSG_HDRLEN : Nat := 16

/-- `NLMSG_LENGTH`. -/
def nlmsg_length (n : Nat) : Nat := n + NLMSG_HDRLEN

/-- `NLMSG_SPACE`. -/
def nlmsg_space (n : Nat) : Nat := nlmsg_align (nlmsg_length n)

/-- `RTA_ALIGN`: round up to the 4-byte attribute alignment. -/
def rta_align (n : Nat) : Nat := (n + 3) / 4 * 4

/-- `RTA_LENGTH`: attribute payload length plus the aligned 4-byte
`struct rtattr` header (u16 `rta_len`, u16 `rta_type`); this is the value
stored in the attribute's length prefix, computed before padding. -/
def RTA_LENGTH (n : Nat) : Nat := rta_align 4 + n

/-- `RTA_SPACE`: the padded space an attribute occupies in the buffer. -/
def RTA_SPACE (n : Nat) : Nat := rta_align (RTA_LENGTH n)

/-- Little-endian byte pair of a u16 value. -/
def u16le (x : Nat) : List Nat := [x % 256, x / 256 % 256]

/-- Little-endian byte quadruple of a u32 value. -/
def u32le (x : Nat) : List Nat :=
  [x % 256, x / 256 % 256, x / 65536 % 256, x / 16777216 % 256]

def NLM_F_REQUEST : Nat := 1
def NLM_F_ACK : Nat := 4
def RTM_NEWADDR : Nat := 20
def RTM_DELADDR : Nat := 21
def AF_INET : Nat := 2
def AF_INET6 : Nat := 10
def IFA_ADDRESS : Nat := 1
def IFA_LOCAL : Nat := 2

/-- `vnet_netlink_msg_init` (lines 272-286): allocate `NLMSG_SPACE
(msg_len)` fresh bytes, write `nlmsg_type` at offset 4 and `nlmsg_flags |
NLM_F_ACK` at offset 6, and copy the fixed payload right after the 16-byte
header. `nlmsg_len` (offset 0-3), `nlmsg_seq`/`nlmsg_pid` (offsets 8-15)
and the tail padding stay unwritten. -/
def vnet_netlink_msg_init (ty flags : Nat) (payload : List Nat) :
    List (Option Nat) :=
  List.replicate 4 none ++
  (u16le ty).map some ++
  (u16le (flags ||| NLM_F_ACK)).map some ++
  List.replicate 8 none ++
  payload.map some ++
  List.replicate (nlmsg_space payload.length - nlmsg_length payload.length)
    none

/-- `vnet_netlink_msg_add_rtattr` (lines 288-300): append `RTA_SPACE
(rta_data_len)` bytes holding `rta_len = RTA_LENGTH (rta_data_len)` (the
length prefix, computed before padding), `rta_type`, the value, and
unwritten padding. -/
def vnet_netlink_msg_add_rtattr (buf : List (Option Nat)) (rtaType : Nat)
    (rtaData : List Nat) : List (Option Nat) :=
  buf ++
  (u16le (RTA_LENGTH rtaData.length)).map some ++
  (u16le rtaType).map some ++
  rtaData.map some ++
  List.replicate (RTA_SPACE rtaData.length - RTA_LENGTH rtaData.length) none

/-- `struct ifaddrmsg` as built by the address operations (lines 362-367):
`ifa_family`, `ifa_prefixlen`, `ifa_flags` and `ifa_scope` zeroed by the
`{ 0 }` initializer, then the u32 `ifa_index`. -/
def ifaddrmsg_bytes (family prefixlen ifindex : Nat) : List Nat :=
  [family, prefixlen % 256, 0, 0] ++ u32le ifindex

/-- The message built by `vnet_netlink_del_ip4_addr` (lines 358-378)
before it is sent: an `RTM_DELADDR` request over an IPv4 `ifaddrmsg`, with
an `IFA_LOCAL` and an `IFA_ADDRESS` attribute both holding the same 4-byte
address. -/
def vnet_netlink_del_ip4_addr_msg (ifindex : Nat) (addr : List Nat)
    (pfx_len : Nat) : List (Option Nat) :=
  vnet_netlink_msg_add_rtattr
    (vnet_netlink_msg_add_rtattr
      (vnet_netlink_msg_init RTM_DELADDR NLM_F_REQUEST
        (ifaddrmsg_bytes AF_INET pfx_len ifindex))
      IFA_LOCAL addr)
    IFA_ADDRESS addr

/-- The message built by `vnet_netlink_del_ip6_addr` (lines 380-400): as
the IPv4 one with `AF_INET6` and 16-byte attribute values. -/
def vnet_netlink_del_ip6_addr_msg (ifindex : Nat) (addr : List Nat)
    (pfx_len : Nat) : List (Option Nat) :=
  vnet_netlink_msg_add_rtattr
    (vnet_netlink_msg_add_rtattr
      (vnet_netlink_msg_init RTM_DELADDR NLM_F_REQUEST
        (ifaddrmsg_bytes AF_INET6 pfx_len ifindex))
      IFA_LOCAL addr)
    IFA_ADDRESS addr

/-- Read one defined byte. -/
def readByte (buf : List (Option Nat)) (off : Nat) : Option Nat :=
  match buf.get? off with
  | some (some b) => some b
  | _ => none

/-- Read a little-endian u16 of defined bytes. -/
def readU16 (buf : List (Option Nat)) (off : Nat) : Option Nat :=
  match readByte buf off, readByte buf (off + 1) with
  | some a, some b => some (a + 256 * b)
  | _, _ => none

/-- Read a little-endian u32 of defined bytes. -/
def readU32 (buf : List (Option Nat)) (off : Nat) : Option Nat :=
  match readByte buf off, readByte buf (off + 1), readByte buf (off + 2),
      readByte buf (off + 3) with
  | some a, some b, some c, some d =>
    some (a + 256 * b + 65536 * c + 16777216 * d)
  | _, _, _, _ => none

/-- All bytes of a region, provided every one was written. -/
def definedBytes : List (Option Nat) → Option (List Nat)
  | [] => some []
  | none :: _ => none
  | some b :: rest => (definedBytes rest).map (fun l => b :: l)

/-- Iterator-style reader of an attribute region: yield each attribute as
`(rta_len, rta_type, value)` where `value` is the `rta_len - 4` defined
value bytes, advancing by the aligned space; fail on truncated or
malformed input. `fuel` bounds the recursion. -/
def parse_rtattrs : Nat → List (Option Nat) →
    Option (List (Nat × Nat × List Nat))
  | _, [] => some []
  | 0, _ => none
  | fuel + 1, buf =>
    match readU16 buf 0, readU16 buf 2 with
    | some len, some ty =>
      if 4 ≤ len ∧ len ≤ buf.length then
        match definedBytes ((buf.drop 4).take (len - 4)) with
        | some v =>
          (parse_rtattrs fuel (buf.drop (rta_align len))).map
            (fun rest => (len, ty, v) :: rest)
        | none => none
      else none
    | _, _ => none

/-! ### Trace predicates and concrete fixtures -/

/-- Pick `lcp_itf_set_link_state` calls out of a trace. -/
def isSetLinkState : Effect → Bool
  | Effect.setLinkState _ _ => true
  | _ => false

/-- Pick `vnet_sw_interface_set_mtu` calls out of a trace. -/
def isSetSwMtu : Effect → Bool
  | Effect.setSwMtu _ _ => true
  | _ => false

/-- Pick `vnet_netlink_set_link_mtu` calls out of a trace. -/
def isNetlinkSetMtu : Effect → Bool
  | Effect.netlinkSetMtu _ _ => true
  | _ => false

/-- Pick `clib_setns` calls out of a trace. -/
def isSetNetNs : Effect → Bool
  | Effect.setNetNs _ => true
  | _ => false

/-- Holds of an effect unless it is an `lcp_nl_table_find` call with a
family other than `FIB_PROTOCOL_IP4`. -/
def tableFindUsesIp4 : Effect → Bool
  | Effect.nlTableFind _ fam => fam == FibProto.ip4
  | _ => true

/-- A quiescent base world: sync enabled, auto-subint off, empty
registries, every namespace-handle open failing except the self handle,
no kernel MTU answer. -/
def w0 : World :=
  { lcp_sync := true
    lcp_auto_subint := false
    sws := fun _ => none
    hws := fun _ => false
    hwSws := fun _ => []
    pairs := []
    netlinkMtu := fun _ => none
    activeNs := "init"
    nsSelfOpenOk := true
    nsOpenable := fun _ => false
    fibTableId := fun _ _ => 0
    nlTables := fun _ _ => none
    ifIndexToName := fun _ => none
    trace := [] }

/-- Physical interface 5 whose parent index 9 is left unresolvable. -/
def swC1 : SwInterface :=
  { flags := 1, mtuL3 := 1500, sup_sw_if_index := 9, hw_if_index := 3
    is_sub := true, sub_id := 100 }

/-- Pair over interface 5. -/
def lipC1 : LcpItfPair :=
  { lip_phy_sw_if_index := 5, lip_host_sw_if_index := 105
    lip_vif_index := 15, lip_namespace := none, lip_host_name := "e0" }

/-- World where the physical interface of `lipC1` resolves but its parent
(index 9) does not. -/
def wC1 : World :=
  { w0 with
    sws := fun i => if i = 5 then some swC1 else none
    pairs := [lipC1] }

/-- Reply environment whose single receive yields one message that is
neither `NLMSG_DONE` nor `NLMSG_ERROR`. -/
def envC4 : SendEnv :=
  { socketOk := true, bindOk := true, sendOk := true
    recvResult := some [NlReply.other [7]] }

/-- Reply environment for the witness: a lone `NLMSG_ERROR` with code 0. -/
def envC4w : SendEnv :=
  { socketOk := true, bindOk := true, sendOk := true
    recvResult := some [NlReply.err 0] }

/-- Interface and pair fixture for the namespace-guard claims: both the
physical interface 5 and its parent 9 resolve, the pair lives in
namespace `red`. -/
def swC5 : SwInterface :=
  { flags := 1, mtuL3 := 1500, sup_sw_if_index := 9, hw_if_index := 3
    is_sub := true, sub_id := 100 }

/-- Parent interface 9. -/
def supC5 : SwInterface :=
  { flags := 1, mtuL3 := 1500, sup_sw_if_index := 9, hw_if_index := 3
    is_sub := false, sub_id := 0 }

/-- Pair over interface 5 living in namespace `red`. -/
def lipC5 : LcpItfPair :=
  { lip_phy_sw_if_index := 5, lip_host_sw_if_index := 105
    lip_vif_index := 15, lip_namespace := some "red", lip_host_name := "e0" }

/-- World whose self-namespace handle fails to open while the target
namespace `red` opens. -/
def wC5 : World :=
  { w0 with
    sws := fun i => if i = 5 then some swC5 else if i = 9 then some supC5
      else none
    pairs := [lipC5]
    nsSelfOpenOk := false
    nsOpenable := fun s => s == "red" }

/-- Pair over the parent interface 1, named `host0` in namespace `ns0`. -/
def lipC6sup : LcpItfPair :=
  { lip_phy_sw_if_index := 1, lip_host_sw_if_index := 101
    lip_vif_index := 11, lip_namespace := some "ns0"
    lip_host_name := "host0" }

/-- Sub-interface 2 (sub-id 7) of parent 1. -/
def swC6 : SwInterface :=
  { flags := 0, mtuL3 := 0, sup_sw_if_index := 1, hw_if_index := 10
    is_sub := true, sub_id := 7 }

/-- World with the global sync toggle disabled but auto sub-interface
mirroring enabled, a parent pair present, and sub-interface 2 created. -/
def wC6 : World :=
  { w0 with
    lcp_sync := false
    lcp_auto_subint := true
    sws := fun i => if i = 2 then some swC6 else none
    pairs := [lipC6sup] }

/-- Parent device interface 1 (not a sub-interface) on hardware 10. -/
def swC9parent : SwInterface :=
  { flags := 1, mtuL3 := 1500, sup_sw_if_index := 1, hw_if_index := 10
    is_sub := false, sub_id := 0 }

/-- Sub-interface 2 of hardware 10, which has a pair. -/
def swC9child : SwInterface :=
  { flags := 1, mtuL3 := 1500, sup_sw_if_index := 1, hw_if_index := 10
    is_sub := true, sub_id := 7 }

/-- Pair over the child interface 2. -/
def lipC9child : LcpItfPair :=
  { lip_phy_sw_if_index := 2, lip_host_sw_if_index := 102
    lip_vif_index := 12, lip_namespace := none, lip_host_name := "host0.7" }

/-- World where the parent device 1 has no pair of its own, while its
child sub-interface 2 is paired. -/
def wC9 : World :=
  { w0 with
    sws := fun i => if i = 1 then some swC9parent
      else if i = 2 then some swC9child else none
    hws := fun h => h = 10
    hwSws := fun h => if h = 10 then [1, 2] else []
    pairs := [lipC9child] }

/-- Pair over the parent device interface 1. -/
def lipC9parent : LcpItfPair :=
  { lip_phy_sw_if_index := 1, lip_host_sw_if_index := 101
    lip_vif_index := 11, lip_namespace := none, lip_host_name := "host0" }

/-- World where the parent device 1 does have a pair, for the amended
admin-state-change claim's witness. -/
def wC9w : World :=
  { wC9 with pairs := [lipC9child, lipC9parent] }

/-- Interface pair fixture for the sync-state witnesses: physical 5
(admin up, MTU 1500) under parent 9 (admin down, MTU 1400), kernel
reporting MTU 1500 on vif 15. -/
def swW : SwInterface :=
  { flags := 1, mtuL3 := 1500, sup_sw_if_index := 9, hw_if_index := 3
    is_sub := true, sub_id := 100 }

/-- Parent 9, admin down with MTU 1400. -/
def supW : SwInterface :=
  { flags := 0, mtuL3 := 1400, sup_sw_if_index := 9, hw_if_index := 3
    is_sub := false, sub_id := 0 }

/-- Pair over interface 5, no namespace. -/
def lipW : LcpItfPair :=
  { lip_phy_sw_if_index := 5, lip_host_sw_if_index := 105
    lip_vif_index := 15, lip_namespace := none, lip_host_name := "e0" }

/-- World for the sync-state witnesses. -/
def wW : World :=
  { w0 with
    sws := fun i => if i = 5 then some swW else if i = 9 then some supW
      else none
    pairs := [lipW]
    netlinkMtu := fun v => if v = 15 then some 1500 else none }

/-- World for the table-bind witness: binding FIB index 100 resolves to
table id 3, whose host device 77 is named `vpp-vrf3`. -/
def wC10 : World :=
  { w0 with
    pairs := [lipW]
    sws := fun i => if i = 5 then some swW else none
    fibTableId := fun fib _ => if fib = 100 then 3 else 0
    nlTables := fun tid fam =>
      if tid = 3 ∧ fam == FibProto.ip4 then some { nlt_if_index := 77 }
      else none
    ifIndexToName := fun i => if i = 77 then some "vpp-vrf3" else none }

/-- World with both toggles disabled, for the disabled-handler witness. -/
def wC6w : World :=
  { w0 with lcp_sync := false }

/-! ### Helper lemmas -/

lemma ns_enter_fst_sws (w : World) (ns : Option String) :
    ((ns_enter w ns).1).sws = w.sws := by
  cases ns with
  | none => rfl
  | some s =>
    simp only [ns_enter]
    by_cases h : w.nsOpenable s <;> simp [h, clib_setns]

lemma ns_enter_fst_netlinkMtu (w : World) (ns : Option String) :
    ((ns_enter w ns).1).netlinkMtu = w.netlinkMtu := by
  cases ns with
  | none => rfl
  | some s =>
    simp only [ns_enter]
    by_cases h : w.nsOpenable s <;> simp [h, clib_setns]

lemma ns_enter_fst_lcp_sync (w : World) (ns : Option String) :
    ((ns_enter w ns).1).lcp_sync = w.lcp_sync := by
  cases ns with
  | none => rfl
  | some s =>
    simp only [ns_enter]
    by_cases h : w.nsOpenable s <;> simp [h, clib_setns]

lemma ns_enter_fst_nsSelfOpenOk (w : World) (ns : Option String) :
    ((ns_enter w ns).1).nsSelfOpenOk = w.nsSelfOpenOk := by
  cases ns with
  | none => rfl
  | some s =>
    simp only [ns_enter]
    by_cases h : w.nsOpenable s <;> simp [h, clib_setns]

lemma ns_enter_fst_trace_filter (w : World) (ns : Option String)
    (p : Effect → Bool) (hp : ∀ s, p (Effect.setNetNs s) = false) :
    ((ns_enter w ns).1).trace.filter p = w.trace.filter p := by
  cases ns with
  | none => rfl
  | some s =>
    simp only [ns_enter]
    by_cases h : w.nsOpenable s <;> simp [h, clib_setns, hp]

lemma ns_enter_curr_of_selfOk (w : World) (s : String)
    (h : w.nsSelfOpenOk = true) :
    (ns_enter w (some s)).2.1 = some w.activeNs := by
  simp only [ns_enter, h]
  by_cases hv : w.nsOpenable s <;> simp [hv]

lemma ns_exit_sws (w : World) (c v : Option String) :
    (ns_exit w c v).sws = w.sws := by
  cases c <;> simp [ns_exit, clib_setns]

lemma ns_exit_netlinkMtu (w : World) (c v : Option String) :
    (ns_exit w c v).netlinkMtu = w.netlinkMtu := by
  cases c <;> simp [ns_exit, clib_setns]

lemma ns_exit_lcp_sync (w : World) (c v : Option String) :
    (ns_exit w c v).lcp_sync = w.lcp_sync := by
  cases c <;> simp [ns_exit, clib_setns]

lemma ns_exit_nsSelfOpenOk (w : World) (c v : Option String) :
    (ns_exit w c v).nsSelfOpenOk = w.nsSelfOpenOk := by
  cases c <;> simp [ns_exit, clib_setns]

lemma ns_exit_trace_filter (w : World) (c v : Option String)
    (p : Effect → Bool) (hp : ∀ s, p (Effect.setNetNs s) = false) :
    (ns_exit w c v).trace.filter p = w.trace.filter p := by
  cases c <;> simp [ns_exit, clib_setns, hp]

lemma ns_exit_activeNs_some (w : World) (h : String) (v : Option String) :
    (ns_exit w (some h) v).activeNs = h := rfl

lemma ns_exit_activeNs_none (w : World) (v : Option String) :
    (ns_exit w none v).activeNs = w.activeNs := rfl

lemma sync_state_mtu_eq_spec (sw sup : SwInterface) :
    sync_state_mtu sw sup =
      (if sw.mtuL3 = 0 then sup.mtuL3
       else if sup.mtuL3 < sw.mtuL3 then sup.mtuL3 else sw.mtuL3) := by
  simp only [sync_state_mtu]
  split <;> split <;> omega

lemma sync_state_mtu_le (sw sup : SwInterface) :
    sync_state_mtu sw sup ≤ sup.mtuL3 := by
  rw [sync_state_mtu_eq_spec]
  split <;> [omega; (split <;> omega)]

lemma sync_state_mtu_zero (sw sup : SwInterface) (h : sw.mtuL3 = 0) :
    sync_state_mtu sw sup = sup.mtuL3 := by
  rw [sync_state_mtu_eq_spec]
  simp [h]

lemma sync_state_mtu_eq_zero (sw sup : SwInterface)
    (h : sync_state_mtu sw sup = 0) : sup.mtuL3 = 0 := by
  rw [sync_state_mtu_eq_spec] at h
  split at h
  · exact h
  · split at h
    · exact h
    · omega

lemma sync_state_mtu_stable (sw sup sw2 sup2 : SwInterface)
    (hs : sw2.mtuL3 = sync_state_mtu sw sup)
    (hp : sup2.mtuL3 = sup.mtuL3 ∨ sup2.mtuL3 = sync_state_mtu sw sup) :
    sync_state_mtu sw2 sup2 = sync_state_mtu sw sup := by
  have hle := sync_state_mtu_le sw sup
  rw [sync_state_mtu_eq_spec, hs]
  by_cases h0 : sync_state_mtu sw sup = 0
  · have hz := sync_state_mtu_eq_zero sw sup h0
    rcases hp with hp | hp <;> simp [h0, hp, hz]
  · rw [if_neg h0]
    rcases hp with hp | hp
    · rw [hp, if_neg (by omega)]
    · rw [hp, if_neg (by omega)]

lemma sync_state_core_sws (w : World) (lip : LcpItfPair)
    (sw sup : SwInterface) (j : Nat) :
    (sync_state_core w lip sw sup).sws j =
      (if j = lip.lip_host_sw_if_index then
        ((if j = lip.lip_phy_sw_if_index then
            (w.sws j).map (fun s => { s with mtuL3 := sync_state_mtu sw sup })
          else w.sws j)).map
          (fun s => { s with mtuL3 := sync_state_mtu sw sup })
      else
        (if j = lip.lip_phy_sw_if_index then
          (w.sws j).map (fun s => { s with mtuL3 := sync_state_mtu sw sup })
        else w.sws j)) := by
  simp only [sync_state_core, emit, vnet_sw_interface_set_mtu,
    vnet_netlink_set_link_mtu]
  cases hq : w.netlinkMtu lip.lip_vif_index with
  | none => rfl
  | some q => by_cases hqm : q = sync_state_mtu sw sup <;> simp [hqm]

lemma sync_state_core_sws_phy (w : World) (lip : LcpItfPair)
    (sw sup : SwInterface) (hsw : w.sws lip.lip_phy_sw_if_index = some sw) :
    (sync_state_core w lip sw sup).sws lip.lip_phy_sw_if_index =
      some { sw with mtuL3 := sync_state_mtu sw sup } := by
  rw [sync_state_core_sws]
  by_cases hph : lip.lip_phy_sw_if_index = lip.lip_host_sw_if_index
  · rw [if_pos hph, if_pos rfl, hsw]
    rfl
  · rw [if_neg hph, if_pos rfl, hsw]
    rfl

lemma sync_state_core_sws_sup (w : World) (lip : LcpItfPair)
    (sw sup : SwInterface)
    (hsup : w.sws sw.sup_sw_if_index = some sup) :
    ∃ sup2, (sync_state_core w lip sw sup).sws sw.sup_sw_if_index =
      some sup2 ∧
      (sup2.mtuL3 = sup.mtuL3 ∨ sup2.mtuL3 = sync_state_mtu sw sup) := by
  rw [sync_state_core_sws]
  by_cases h1 : sw.sup_sw_if_index = lip.lip_host_sw_if_index
  · rw [if_pos h1]
    by_cases h2 : sw.sup_sw_if_index = lip.lip_phy_sw_if_index
    · rw [if_pos h2, hsup]
      exact ⟨_, rfl, Or.inr rfl⟩
    · rw [if_neg h2, hsup]
      exact ⟨_, rfl, Or.inr rfl⟩
  · rw [if_neg h1]
    by_cases h2 : sw.sup_sw_if_index = lip.lip_phy_sw_if_index
    · rw [if_pos h2, hsup]
      exact ⟨_, rfl, Or.inr rfl⟩
    · rw [if_neg h2, hsup]
      exact ⟨sup, rfl, Or.inl rfl⟩

lemma sync_state_core_netlinkMtu_none (w : World) (lip : LcpItfPair)
    (sw sup : SwInterface)
    (hq : w.netlinkMtu lip.lip_vif_index = none) :
    (sync_state_core w lip sw sup).netlinkMtu lip.lip_vif_index = none := by
  simp [sync_state_core, emit, vnet_sw_interface_set_mtu,
    vnet_netlink_set_link_mtu, hq]

lemma sync_state_core_netlinkMtu_some (w : World) (lip : LcpItfPair)
    (sw sup : SwInterface) (q : Nat)
    (hq : w.netlinkMtu lip.lip_vif_index = some q) :
    (sync_state_core w lip sw sup).netlinkMtu lip.lip_vif_index =
      some (sync_state_mtu sw sup) := by
  simp only [sync_state_core, emit, vnet_sw_interface_set_mtu,
    vnet_netlink_set_link_mtu, hq]
  by_cases hqm : q = sync_state_mtu sw sup <;> simp [hqm, hq]

lemma sync_state_core_activeNs (w : World) (lip : LcpItfPair)
    (sw sup : SwInterface) :
    (sync_state_core w lip sw sup).activeNs = w.activeNs := by
  simp only [sync_state_core, emit, vnet_sw_interface_set_mtu,
    vnet_netlink_set_link_mtu]
  cases hq : w.netlinkMtu lip.lip_vif_index with
  | none => simp
  | some q => by_cases hqm : q = sync_state_mtu sw sup <;> simp [hqm]

lemma sync_state_core_lcp_sync (w : World) (lip : LcpItfPair)
    (sw sup : SwInterface) :
    (sync_state_core w lip sw sup).lcp_sync = w.lcp_sync := by
  simp only [sync_state_core, emit, vnet_sw_interface_set_mtu,
    vnet_netlink_set_link_mtu]
  cases hq : w.netlinkMtu lip.lip_vif_index with
  | none => simp
  | some q => by_cases hqm : q = sync_state_mtu sw sup <;> simp [hqm]

lemma sync_state_core_nsSelfOpenOk (w : World) (lip : LcpItfPair)
    (sw sup : SwInterface) :
    (sync_state_core w lip sw sup).nsSelfOpenOk = w.nsSelfOpenOk := by
  simp only [sync_state_core, emit, vnet_sw_interface_set_mtu,
    vnet_netlink_set_link_mtu]
  cases hq : w.netlinkMtu lip.lip_vif_index with
  | none => simp
  | some q => by_cases hqm : q = sync_state_mtu sw sup <;> simp [hqm]

lemma sync_state_core_filter_link (w : World) (lip : LcpItfPair)
    (sw sup : SwInterface) :
    (sync_state_core w lip sw sup).trace.filter isSetLinkState =
      w.trace.filter isSetLinkState ++
      [Effect.setLinkState lip.lip_host_sw_if_index
        (sync_state_link sw sup)] := by
  simp only [sync_state_core, emit, vnet_sw_interface_set_mtu,
    vnet_netlink_set_link_mtu]
  cases hq : w.netlinkMtu lip.lip_vif_index with
  | none => simp [List.filter_append, isSetLinkState]
  | some q =>
    by_cases hqm : q = sync_state_mtu sw sup <;>
      simp [hqm, List.filter_append, isSetLinkState]

lemma sync_state_core_filter_swmtu (w : World) (lip : LcpItfPair)
    (sw sup : SwInterface) :
    (sync_state_core w lip sw sup).trace.filter isSetSwMtu =
      w.trace.filter isSetSwMtu ++
      [Effect.setSwMtu lip.lip_phy_sw_if_index (sync_state_mtu sw sup),
       Effect.setSwMtu lip.lip_host_sw_if_index (sync_state_mtu sw sup)] := by
  simp only [sync_state_core, emit, vnet_sw_interface_set_mtu,
    vnet_netlink_set_link_mtu]
  cases hq : w.netlinkMtu lip.lip_vif_index with
  | none => simp [List.filter_append, isSetSwMtu]
  | some q =>
    by_cases hqm : q = sync_state_mtu sw sup <;>
      simp [hqm, List.filter_append, isSetSwMtu]

lemma sync_state_core_filter_nlset (w : World) (lip : LcpItfPair)
    (sw sup : SwInterface) :
    (sync_state_core w lip sw sup).trace.filter isNetlinkSetMtu =
      w.trace.filter isNetlinkSetMtu ++
      (match w.netlinkMtu lip.lip_vif_index with
       | some q =>
         if q = sync_state_mtu sw sup then []
         else [Effect.netlinkSetMtu lip.lip_vif_index (sync_state_mtu sw sup)]
       | none => []) := by
  simp only [sync_state_core, emit, vnet_sw_interface_set_mtu,
    vnet_netlink_set_link_mtu]
  cases hq : w.netlinkMtu lip.lip_vif_index with
  | none => simp [List.filter_append, isNetlinkSetMtu]
  | some q =>
    by_cases hqm : q = sync_state_mtu sw sup <;>
      simp [hqm, List.filter_append, isNetlinkSetMtu]

lemma sync_state_core_filter_setns (w : World) (lip : LcpItfPair)
    (sw sup : SwInterface) :
    (sync_state_core w lip sw sup).trace.filter isSetNetNs =
      w.trace.filter isSetNetNs := by
  simp only [sync_state_core, emit, vnet_sw_interface_set_mtu,
    vnet_netlink_set_link_mtu]
  cases hq : w.netlinkMtu lip.lip_vif_index with
  | none => simp [List.filter_append, isSetNetNs]
  | some q =>
    by_cases hqm : q = sync_state_mtu sw sup <;>
      simp [hqm, List.filter_append, isSetNetNs]

lemma sync_state_resolved (w : World) (lip : LcpItfPair)
    (sw sup : SwInterface)
    (hsync : w.lcp_sync = true)
    (hsw : w.sws lip.lip_phy_sw_if_index = some sw)
    (hsup : w.sws sw.sup_sw_if_index = some sup) :
    ∃ w', lcp_itf_pair_sync_state w lip = some w' ∧
      w'.lcp_sync = true ∧
      w'.sws lip.lip_phy_sw_if_index =
        some { sw with mtuL3 := sync_state_mtu sw sup } ∧
      (∃ sup2, w'.sws sw.sup_sw_if_index = some sup2 ∧
        (sup2.mtuL3 = sup.mtuL3 ∨ sup2.mtuL3 = sync_state_mtu sw sup)) ∧
      (w.netlinkMtu lip.lip_vif_index = none →
        w'.netlinkMtu lip.lip_vif_index = none) ∧
      (∀ q, w.netlinkMtu lip.lip_vif_index = some q →
        w'.netlinkMtu lip.lip_vif_index = some (sync_state_mtu sw sup)) ∧
      w'.trace.filter isSetLinkState = w.trace.filter isSetLinkState ++
        [Effect.setLinkState lip.lip_host_sw_if_index
          (sync_state_link sw sup)] ∧
      w'.trace.filter isSetSwMtu = w.trace.filter isSetSwMtu ++
        [Effect.setSwMtu lip.lip_phy_sw_if_index (sync_state_mtu sw sup),
         Effect.setSwMtu lip.lip_host_sw_if_index (sync_state_mtu sw sup)] ∧
      w'.trace.filter isNetlinkSetMtu = w.trace.filter isNetlinkSetMtu ++
        (match w.netlinkMtu lip.lip_vif_index with
         | some q =>
           if q = sync_state_mtu sw sup then []
           else [Effect.netlinkSetMtu lip.lip_vif_index
             (sync_state_mtu sw sup)]
         | none => []) ∧
      (w.nsSelfOpenOk = true ∨ lip.lip_namespace = none →
        w'.activeNs = w.activeNs) ∧
      (lip.lip_namespace = none →
        w'.trace.filter isSetNetNs = w.trace.filter isSetNetNs) := by
  have hsw1 : (ns_enter w lip.lip_namespace).1.sws lip.lip_phy_sw_if_index =
      some sw := by rw [ns_enter_fst_sws]; exact hsw
  have hsup1 : (ns_enter w lip.lip_namespace).1.sws sw.sup_sw_if_index =
      some sup := by rw [ns_enter_fst_sws]; exact hsup
  refine ⟨ns_exit (sync_state_core (ns_enter w lip.lip_namespace).1 lip sw sup)
      (ns_enter w lip.lip_namespace).2.1 (ns_enter w lip.lip_namespace).2.2,
    by simp [lcp_itf_pair_sync_state, hsync, hsw, hsup],
    ?_, ?_, ?_, ?_, ?_, ?_, ?_, ?_, ?_, ?_⟩
  · rw [ns_exit_lcp_sync, sync_state_core_lcp_sync, ns_enter_fst_lcp_sync]
    exact hsync
  · rw [ns_exit_sws]
    exact sync_state_core_sws_phy _ lip sw sup hsw1
  · rw [ns_exit_sws]
    exact sync_state_core_sws_sup _ lip sw sup hsup1
  · intro h
    rw [ns_exit_netlinkMtu]
    refine sync_state_core_netlinkMtu_none _ lip sw sup ?_
    rw [ns_enter_fst_netlinkMtu]
    exact h
  · intro q hq
    rw [ns_exit_netlinkMtu]
    refine sync_state_core_netlinkMtu_some _ lip sw sup q ?_
    rw [ns_enter_fst_netlinkMtu]
    exact hq
  · rw [ns_exit_trace_filter _ _ _ _ (fun _ => rfl),
      sync_state_core_filter_link,
      ns_enter_fst_trace_filter _ _ _ (fun _ => rfl)]
  · rw [ns_exit_trace_filter _ _ _ _ (fun _ => rfl),
      sync_state_core_filter_swmtu,
      ns_enter_fst_trace_filter _ _ _ (fun _ => rfl)]
  · rw [ns_exit_trace_filter _ _ _ _ (fun _ => rfl),
      sync_state_core_filter_nlset,
      ns_enter_fst_trace_filter _ _ _ (fun _ => rfl),
      ns_enter_fst_netlinkMtu]
  · intro hok
    cases hns : lip.lip_namespace with
    | none =>
      dsimp only [ns_enter, ns_exit]
      exact sync_state_core_activeNs w lip sw sup
    | some s =>
      rcases hok with hok | hok
      · rw [ns_enter_curr_of_selfOk w s hok, ns_exit_activeNs_some]
      · rw [hns] at hok
        simp at hok
  · intro hns
    rw [hns]
    dsimp only [ns_enter, ns_exit]
    exact sync_state_core_filter_setns w lip sw sup

lemma sync_state_disabled (w : World) (lip : LcpItfPair)
    (h : w.lcp_sync = false) : lcp_itf_pair_sync_state w lip = some w := by
  simp [lcp_itf_pair_sync_state, h]

lemma walk_pairs_disabled (w : World) (l : List LcpItfPair)
    (h : w.lcp_sync = false) : walk_pairs w l = some w := by
  induction l with
  | nil => rfl
  | cons p rest ih => simp [walk_pairs, sync_state_disabled w p h, ih]

lemma walk_hw_sws_disabled (w : World) (l : List Nat)
    (h : w.lcp_sync = false) : walk_hw_sws w l = some w := by
  induction l with
  | nil => rfl
  | cons i rest ih =>
    cases hf : lcp_itf_pair_find_by_phy w i with
    | none => simp [walk_hw_sws, hf, ih]
    | some lip => simp [walk_hw_sws, hf, sync_state_disabled w lip h, ih]

/-! ### Claim theorems -/

/-- Claim C1 (code bug): the spec requires `lcp_itf_pair_sync_state` to
treat a failed parent (superior) resolution as "no parent constraint" and
complete without failure, but the code fetches `sup_sw` with
`vnet_get_sw_interface_or_null` and then dereferences it without a NULL
check (`sup_sw->flags` in the clamp and log, `sup_sw->mtu[VNET_MTU_L3]` in
the MTU clamp): on a pair whose physical interface resolves while its
parent does not, the function faults (modelled by `none`) instead of
skipping the clamps and proceeding. -/
theorem claim_C1_missing_parent_dereference :
    wC1.lcp_sync = true ∧
    wC1.sws lipC1.lip_phy_sw_if_index = some swC1 ∧
    wC1.sws swC1.sup_sw_if_index = none ∧
    lcp_itf_pair_sync_state wC1 lipC1 = none :=
  ⟨rfl, rfl, rfl, rfl⟩

/-- Claim C2 (confirmed): on a resolvable pair, the admin state pushed to
the mirror via `lcp_itf_set_link_state` is the physical interface's
admin-up bit forced to down when the parent's admin-up bit is clear, so a
pushed admin-up implies the parent is admin-up; the physical interface's
own flags are left unchanged. -/
theorem claim_C2_admin_state_clamp (w : World) (lip : LcpItfPair)
    (sw sup : SwInterface)
    (hsync : w.lcp_sync = true)
    (hsw : w.sws lip.lip_phy_sw_if_index = some sw)
    (hsup : w.sws sw.sup_sw_if_index = some sup)
    (htrace : w.trace = []) :
    ∃ w', lcp_itf_pair_sync_state w lip = some w' ∧
      w'.trace.filter isSetLinkState =
        [Effect.setLinkState lip.lip_host_sw_if_index
          (sync_state_link sw sup)] ∧
      sync_state_link sw sup =
        (if sup.flags &&& VNET_SW_INTERFACE_FLAG_ADMIN_UP = 0 then 0
         else sw.flags &&& VNET_SW_INTERFACE_FLAG_ADMIN_UP) ∧
      (sync_state_link sw sup ≠ 0 →
        sup.flags &&& VNET_SW_INTERFACE_FLAG_ADMIN_UP ≠ 0) ∧
      (w'.sws lip.lip_phy_sw_if_index).map SwInterface.flags =
        some sw.flags := by
  obtain ⟨w', hrun, _, hphy, _, _, _, hlink, _, _, _, _⟩ :=
    sync_state_resolved w lip sw sup hsync hsw hsup
  refine ⟨w', hrun, ?_, ?_, ?_, ?_⟩
  · rw [hlink, htrace]
    rfl
  · simp only [sync_state_link]
    by_cases hp : sup.flags &&& VNET_SW_INTERFACE_FLAG_ADMIN_UP = 0
    · by_cases hs : sw.flags &&& VNET_SW_INTERFACE_FLAG_ADMIN_UP = 0 <;>
        simp [hp, hs]
    · simp [hp]
  · intro hne hp
    apply hne
    by_cases hs : sw.flags &&& VNET_SW_INTERFACE_FLAG_ADMIN_UP = 0 <;>
      simp [sync_state_link, hp, hs]
  · rw [hphy]
    rfl

/-- Witness for C2 at the concrete scenario-A pair: physical interface 5
admin-up under admin-down parent 9, so admin-down (0) is pushed to mirror
105. -/
theorem claim_C2_witness :
    ∃ w', lcp_itf_pair_sync_state wW lipW = some w' ∧
      w'.trace.filter isSetLinkState =
        [Effect.setLinkState lipW.lip_host_sw_if_index
          (sync_state_link swW supW)] ∧
      sync_state_link swW supW =
        (if supW.flags &&& VNET_SW_INTERFACE_FLAG_ADMIN_UP = 0 then 0
         else swW.flags &&& VNET_SW_INTERFACE_FLAG_ADMIN_UP) ∧
      (sync_state_link swW supW ≠ 0 →
        supW.flags &&& VNET_SW_INTERFACE_FLAG_ADMIN_UP ≠ 0) ∧
      (w'.sws lipW.lip_phy_sw_if_index).map SwInterface.flags =
        some swW.flags :=
  claim_C2_admin_state_clamp wW lipW swW supW rfl rfl rfl rfl

/-- Claim C3 (confirmed): on a resolvable pair, the effective MTU is the
physical L3 MTU, the parent's when the physical one is zero, and the
parent's when the parent's is smaller; hence it never exceeds the parent's
MTU and equals it when the physical MTU is zero. It is applied to the
physical and the mirror interface, and pushed over netlink exactly when
the netlink MTU query succeeds with a different value. -/
theorem claim_C3_effective_mtu (w : World) (lip : LcpItfPair)
    (sw sup : SwInterface)
    (hsync : w.lcp_sync = true)
    (hsw : w.sws lip.lip_phy_sw_if_index = some sw)
    (hsup : w.sws sw.sup_sw_if_index = some sup)
    (htrace : w.trace = []) :
    ∃ w', lcp_itf_pair_sync_state w lip = some w' ∧
      sync_state_mtu sw sup =
        (if sw.mtuL3 = 0 then sup.mtuL3
         else if sup.mtuL3 < sw.mtuL3 then sup.mtuL3 else sw.mtuL3) ∧
      sync_state_mtu sw sup ≤ sup.mtuL3 ∧
      (sw.mtuL3 = 0 → sync_state_mtu sw sup = sup.mtuL3) ∧
      w'.trace.filter isSetSwMtu =
        [Effect.setSwMtu lip.lip_phy_sw_if_index (sync_state_mtu sw sup),
         Effect.setSwMtu lip.lip_host_sw_if_index (sync_state_mtu sw sup)] ∧
      w'.trace.filter isNetlinkSetMtu =
        (match w.netlinkMtu lip.lip_vif_index with
         | some q =>
           if q = sync_state_mtu sw sup then []
           else [Effect.netlinkSetMtu lip.lip_vif_index
             (sync_state_mtu sw sup)]
         | none => []) := by
  obtain ⟨w', hrun, _, _, _, _, _, _, hmtu, hnl, _, _⟩ :=
    sync_state_resolved w lip sw sup hsync hsw hsup
  refine ⟨w', hrun, sync_state_mtu_eq_spec sw sup, sync_state_mtu_le sw sup,
    sync_state_mtu_zero sw sup, ?_, ?_⟩
  · rw [hmtu, htrace]
    rfl
  · rw [hnl, htrace]
    rfl

/-- Witness for C3 at the concrete scenario-B pair: physical MTU 1500,
parent MTU 1400, netlink query reporting 1500, so the clamped 1400 is
applied everywhere and pushed over netlink. -/
theorem claim_C3_witness :
    ∃ w', lcp_itf_pair_sync_state wW lipW = some w' ∧
      sync_state_mtu swW supW =
        (if swW.mtuL3 = 0 then supW.mtuL3
         else if supW.mtuL3 < swW.mtuL3 then supW.mtuL3 else swW.mtuL3) ∧
      sync_state_mtu swW supW ≤ supW.mtuL3 ∧
      (swW.mtuL3 = 0 → sync_state_mtu swW supW = supW.mtuL3) ∧
      w'.trace.filter isSetSwMtu =
        [Effect.setSwMtu lipW.lip_phy_sw_if_index (sync_state_mtu swW supW),
         Effect.setSwMtu lipW.lip_host_sw_if_index
           (sync_state_mtu swW supW)] ∧
      w'.trace.filter isNetlinkSetMtu =
        (match wW.netlinkMtu lipW.lip_vif_index with
         | some q =>
           if q = sync_state_mtu swW supW then []
           else [Effect.netlinkSetMtu lipW.lip_vif_index
             (sync_state_mtu swW supW)]
         | none => []) :=
  claim_C3_effective_mtu wW lipW swW supW rfl rfl rfl rfl

lemma nl_reply_walk_fst_rs (collect : Bool) (msgs : List NlReply)
    (acc : SendResult) (rs rs2 : List (List Nat)) :
    (nl_reply_walk collect msgs acc rs).1 =
      (nl_reply_walk collect msgs acc rs2).1 := by
  induction msgs generalizing rs rs2 with
  | nil => rfl
  | cons m rest ih =>
    cases m with
    | done => rfl
    | err c => rfl
    | other raw => exact ih _ _

lemma nl_reply_walk_others_fst (collect : Bool) (pre rest : List NlReply)
    (acc : SendResult) (rs : List (List Nat))
    (h : ∀ m ∈ pre, ∃ raw, m = NlReply.other raw) :
    (nl_reply_walk collect (pre ++ rest) acc rs).1 =
      (nl_reply_walk collect rest acc rs).1 := by
  induction pre generalizing rs with
  | nil => rfl
  | cons m pre2 ih =>
    obtain ⟨raw, hm⟩ := h m (List.mem_cons_self m pre2)
    subst hm
    show (nl_reply_walk collect (pre2 ++ rest) acc
      (if collect then rs ++ [raw] else rs)).1 = _
    rw [ih _ (fun m2 hm2 => h m2 (List.mem_cons_of_mem _ hm2))]
    exact nl_reply_walk_fst_rs collect rest acc _ rs

/-- Claim C4 counterexample: a received reply consisting of one message
that is neither `NLMSG_DONE` nor `NLMSG_ERROR` is NOT reported as a
receive failure — the walk simply runs off the end of the buffer and the
transaction is reported as success, the message collected. -/
theorem claim_C4_counterexample :
    vnet_netlink_msg_send envC4 true = (SendResult.ok, [[7]]) ∧
    SendResult.ok ≠ SendResult.recvErr :=
  ⟨rfl, by decide⟩

/-- Claim C4 (amended): for a transaction whose syscalls succeed, a
`NLMSG_DONE` message (after any run of ordinary messages) ends the
transaction with success; an `NLMSG_ERROR` with code zero yields success;
an `NLMSG_ERROR` with nonzero code yields a protocol-level failure
distinct from every syscall failure; and a reply sequence containing
neither a `NLMSG_DONE` nor an `NLMSG_ERROR` ends the walk and is reported
as success (not as a receive failure — only a failing `recv` syscall is). -/
theorem claim_C4_reply_walk (env : SendEnv) (msgs : List NlReply)
    (collect : Bool)
    (hsock : env.socketOk = true) (hbind : env.bindOk = true)
    (hsend : env.sendOk = true) (hrecv : env.recvResult = some msgs) :
    (∀ pre rest, (∀ m ∈ pre, ∃ raw, m = NlReply.other raw) →
      msgs = pre ++ NlReply.done :: rest →
      (vnet_netlink_msg_send env collect).1 = SendResult.ok) ∧
    (∀ pre rest, (∀ m ∈ pre, ∃ raw, m = NlReply.other raw) →
      msgs = pre ++ NlReply.err 0 :: rest →
      (vnet_netlink_msg_send env collect).1 = SendResult.ok) ∧
    (∀ pre rest c, c ≠ 0 → (∀ m ∈ pre, ∃ raw, m = NlReply.other raw) →
      msgs = pre ++ NlReply.err c :: rest →
      (vnet_netlink_msg_send env collect).1 = SendResult.netlinkErr c ∧
      SendResult.netlinkErr c ≠ SendResult.sockErr ∧
      SendResult.netlinkErr c ≠ SendResult.bindErr ∧
      SendResult.netlinkErr c ≠ SendResult.sendErr ∧
      SendResult.netlinkErr c ≠ SendResult.recvErr) ∧
    ((∀ m ∈ msgs, ∃ raw, m = NlReply.other raw) →
      (vnet_netlink_msg_send env collect).1 = SendResult.ok) := by
  have hred : vnet_netlink_msg_send env collect =
      nl_reply_walk collect msgs SendResult.ok [] := by
    simp [vnet_netlink_msg_send, hsock, hbind, hsend, hrecv]
  refine ⟨?_, ?_, ?_, ?_⟩
  · intro pre rest hpre hmsgs
    rw [hred, hmsgs, nl_reply_walk_others_fst collect pre _ _ _ hpre]
    rfl
  · intro pre rest hpre hmsgs
    rw [hred, hmsgs, nl_reply_walk_others_fst collect pre _ _ _ hpre]
    simp [nl_reply_walk]
  · intro pre rest c hc hpre hmsgs
    refine ⟨?_, by simp, by simp, by simp, by simp⟩
    rw [hred, hmsgs, nl_reply_walk_others_fst collect pre _ _ _ hpre]
    simp [nl_reply_walk, hc]
  · intro hall
    rw [hred, show msgs = msgs ++ [] by simp,
      nl_reply_walk_others_fst collect msgs [] _ _
        (fun m hm => hall m (by simpa using hm))]
    rfl

/-- Witness for C4 at a concrete transaction: working syscalls, a lone
error record with code 0, reported as success. -/
theorem claim_C4_witness :
    (vnet_netlink_msg_send envC4w false).1 = SendResult.ok :=
  (claim_C4_reply_walk envC4w [NlReply.err 0] false rfl rfl rfl rfl).2.1
    [] [] (fun m hm => absurd hm (List.not_mem_nil m)) rfl

/-- Claim C5 counterexample: when the handle to the caller's own namespace
fails to open (`clib_netns_open (NULL)` returning -1) while the pair's
target namespace opens, `lcp_itf_pair_sync_state` switches into the target
namespace and never switches back: the active namespace after the call is
`red`, not the original `init`. -/
theorem claim_C5_counterexample :
    wC5.activeNs = "init" ∧
    (lcp_itf_pair_sync_state wC5 lipC5).map World.activeNs = some "red" :=
  ⟨rfl, rfl⟩

/-- Claim C5 (amended): whenever the self-namespace handle opens
successfully — or the pair has no namespace at all — the active namespace
after `lcp_itf_pair_sync_state` returns equals the namespace active before
it, and a pair without a namespace performs no namespace switch at all. -/
theorem claim_C5_namespace_restore (w : World) (lip : LcpItfPair)
    (w' : World)
    (hok : w.nsSelfOpenOk = true ∨ lip.lip_namespace = none)
    (h : lcp_itf_pair_sync_state w lip = some w') :
    w'.activeNs = w.activeNs ∧
    (lip.lip_namespace = none →
      w'.trace.filter isSetNetNs = w.trace.filter isSetNetNs) := by
  by_cases hsync : w.lcp_sync = true
  · cases hsw : w.sws lip.lip_phy_sw_if_index with
    | none =>
      simp [lcp_itf_pair_sync_state, hsync, hsw] at h
      subst h
      exact ⟨rfl, fun _ => rfl⟩
    | some sw =>
      cases hsup : w.sws sw.sup_sw_if_index with
      | none => simp [lcp_itf_pair_sync_state, hsync, hsw, hsup] at h
      | some sup =>
        obtain ⟨w2, hrun, _, _, _, _, _, _, _, _, hns1, hns2⟩ :=
          sync_state_resolved w lip sw sup hsync hsw hsup
        rw [hrun] at h
        injection h with h
        subst h
        exact ⟨hns1 hok, hns2⟩
  · have hf : w.lcp_sync = false := by
      cases hval : w.lcp_sync
      · rfl
      · exact absurd hval hsync
    rw [sync_state_disabled w lip hf] at h
    injection h with h
    subst h
    exact ⟨rfl, fun _ => rfl⟩

/-- Witness for C5 at the concrete scenario pair without a namespace:
the run completes and both the active namespace and the absence of any
namespace switch are preserved. -/
theorem claim_C5_witness :
    (sync_state_core wW lipW swW supW).activeNs = wW.activeNs ∧
    ((sync_state_core wW lipW swW supW).trace.filter isSetNetNs =
      wW.trace.filter isSetNetNs) :=
  ⟨(claim_C5_namespace_restore wW lipW (sync_state_core wW lipW swW supW)
      (Or.inl rfl) rfl).1,
   (claim_C5_namespace_restore wW lipW (sync_state_core wW lipW swW supW)
      (Or.inl rfl) rfl).2 rfl⟩

/-- Claim C6 counterexample: with the global sync toggle disabled but the
auto sub-interface toggle enabled, the interface add/del handler still
mutates the pair registry — it is gated on `lcp_auto_subint`, not on
`lcp_sync` — creating a pair for new sub-interface 2. -/
theorem claim_C6_counterexample :
    wC6.lcp_sync = false ∧
    (lcp_itf_interface_add_del wC6 2 true).trace =
      [Effect.pairCreate 2 "host0.7" (some "ns0")] :=
  ⟨rfl, rfl⟩

/-- Claim C6 (amended): with the global sync toggle disabled, the
sync-state entry points and the admin-state, MTU, address and table-bind
handlers are exact no-ops — no netlink transaction and no mirror or pair
mutation; the interface add/del handler is gated by the separate
auto-sub-interface toggle instead, so it is a no-op only when that toggle
is also disabled. -/
theorem claim_C6_disabled_handlers (w : World) (h : w.lcp_sync = false) :
    (∀ lip, lcp_itf_pair_sync_state w lip = some w) ∧
    lcp_itf_pair_sync_state_all w = some w ∧
    (∀ hi, lcp_itf_pair_sync_state_hw w hi = some w) ∧
    (∀ i f, lcp_itf_admin_state_change w i f = some w) ∧
    (∀ i f, lcp_itf_mtu_change w i f = some w) ∧
    (∀ i l d, lcp_itf_ip4_add_del_interface_addr w i l d = w) ∧
    (∀ i l d, lcp_itf_ip6_add_del_interface_addr w i l d = w) ∧
    (∀ p i nf o, lcp_itf_ipX_table_bind w p i nf o = w) ∧
    (w.lcp_auto_subint = false →
      ∀ i c, lcp_itf_interface_add_del w i c = w) := by
  refine ⟨fun lip => sync_state_disabled w lip h,
    walk_pairs_disabled w w.pairs h, ?_, ?_, ?_, ?_, ?_, ?_, ?_⟩
  · intro hi
    cases hi with
    | none => rfl
    | some hh => exact walk_hw_sws_disabled w _ h
  · intro i f
    simp [lcp_itf_admin_state_change, h]
  · intro i f
    simp [lcp_itf_mtu_change, h]
  · intro i l d
    simp [lcp_itf_ip4_add_del_interface_addr, h]
  · intro i l d
    simp [lcp_itf_ip6_add_del_interface_addr, h]
  · intro p i nf o
    simp [lcp_itf_ipX_table_bind, h]
  · intro hauto i c
    simp [lcp_itf_interface_add_del, hauto]

/-- Witness for C6 on a world with both toggles disabled. -/
theorem claim_C6_witness :
    lcp_itf_pair_sync_state wC6w lipW = some wC6w ∧
    lcp_itf_admin_state_change wC6w 1 0 = some wC6w ∧
    lcp_itf_interface_add_del wC6w 2 true = wC6w :=
  ⟨(claim_C6_disabled_handlers wC6w rfl).1 lipW,
   (claim_C6_disabled_handlers wC6w rfl).2.2.2.1 1 0,
   (claim_C6_disabled_handlers wC6w rfl).2.2.2.2.2.2.2.2 rfl 2 true⟩

/-- Claim C7 (confirmed): running `lcp_itf_pair_sync_state` twice on the
same resolvable pair with no intervening external change issues at most
one netlink set-MTU call in total — the second run finds the netlink query
already reporting the applied value and skips the set. -/
theorem claim_C7_idempotent_mtu_push (w : World) (lip : LcpItfPair)
    (sw sup : SwInterface)
    (hsync : w.lcp_sync = true)
    (hsw : w.sws lip.lip_phy_sw_if_index = some sw)
    (hsup : w.sws sw.sup_sw_if_index = some sup)
    (htrace : w.trace = []) :
    ∃ w1 w2, lcp_itf_pair_sync_state w lip = some w1 ∧
      lcp_itf_pair_sync_state w1 lip = some w2 ∧
      w2.trace.filter isNetlinkSetMtu = w1.trace.filter isNetlinkSetMtu ∧
      (w2.trace.filter isNetlinkSetMtu).length ≤ 1 := by
  obtain ⟨w1, hrun1, hsync1, hphy1, ⟨sup2, hsup1, hsup1m⟩, hnone1, hsome1,
    _, _, hnlf1, _, _⟩ := sync_state_resolved w lip sw sup hsync hsw hsup
  obtain ⟨w2, hrun2, _, _, _, _, _, _, _, hnlf2, _, _⟩ :=
    sync_state_resolved w1 lip { sw with mtuL3 := sync_state_mtu sw sup }
      sup2 hsync1 hphy1 hsup1
  have hM2 : sync_state_mtu { sw with mtuL3 := sync_state_mtu sw sup } sup2 =
      sync_state_mtu sw sup :=
    sync_state_mtu_stable sw sup _ sup2 rfl hsup1m
  have hskip : w2.trace.filter isNetlinkSetMtu =
      w1.trace.filter isNetlinkSetMtu := by
    rw [hnlf2, hM2]
    cases hq : w.netlinkMtu lip.lip_vif_index with
    | none =>
      rw [hnone1 hq]
      simp
    | some q =>
      rw [hsome1 q hq]
      simp
  refine ⟨w1, w2, hrun1, hrun2, hskip, ?_⟩
  rw [hskip, hnlf1, htrace]
  cases hq : w.netlinkMtu lip.lip_vif_index with
  | none => simp
  | some q => by_cases hqm : q = sync_state_mtu sw sup <;> simp [hqm]

/-- Witness for C7 at the concrete pair whose kernel-side MTU differs from
the effective MTU, so the first run pushes once and the second skips. -/
theorem claim_C7_witness :
    ∃ w1 w2, lcp_itf_pair_sync_state wW lipW = some w1 ∧
      lcp_itf_pair_sync_state w1 lipW = some w2 ∧
      w2.trace.filter isNetlinkSetMtu = w1.trace.filter isNetlinkSetMtu ∧
      (w2.trace.filter isNetlinkSetMtu).length ≤ 1 :=
  claim_C7_idempotent_mtu_push wW lipW swW supW rfl rfl rfl rfl

/-- Claim C9 counterexample: an admin-state-change event on parent device
1 — not a sub-interface, hardware resolvable, with a paired child 2 — does
nothing, because the handler first requires a pair on the changed
interface itself and returns when the lookup misses; syncing the hardware
interface's children directly would have produced the child's sync
effects. -/
theorem claim_C9_counterexample :
    (lcp_itf_admin_state_change wC9 1 0).map World.trace = some [] ∧
    (lcp_itf_pair_sync_state_hw wC9 (some 10)).map World.trace =
      some [Effect.setLinkState 102 1, Effect.setSwMtu 2 1500,
        Effect.setSwMtu 102 1500, Effect.setIfAddrs 2] :=
  ⟨rfl, rfl⟩

/-- Claim C9 (amended): on an admin-state-change event with sync enabled
and a pair resolved on the changed interface itself, a sub-interface gets
`sync_state` on its own pair, and a non-sub interface whose software and
hardware interfaces resolve gets `sync_state_hw` over the hardware
interface's children. -/
theorem claim_C9_admin_dispatch (w : World) (i f : Nat) (lip : LcpItfPair)
    (hsync : w.lcp_sync = true)
    (hlip : lcp_itf_pair_find_by_phy w i = some lip) :
    (vnet_sw_interface_is_sub w i = true →
      lcp_itf_admin_state_change w i f = lcp_itf_pair_sync_state w lip) ∧
    (∀ si, vnet_sw_interface_is_sub w i = false → w.sws i = some si →
      w.hws si.hw_if_index = true →
      lcp_itf_admin_state_change w i f =
        lcp_itf_pair_sync_state_hw w (some si.hw_if_index)) := by
  constructor
  · intro hsub
    simp [lcp_itf_admin_state_change, hsync, hlip, hsub]
  · intro si hsub hsi hhw
    simp [lcp_itf_admin_state_change, hsync, hlip, hsub, hsi, hhw]

/-- Witness for C9 on the world where both the parent and the child have
pairs: the child event syncs its own pair, the parent event walks the
hardware interface's children. -/
theorem claim_C9_witness :
    lcp_itf_admin_state_change wC9w 2 0 =
      lcp_itf_pair_sync_state wC9w lipC9child ∧
    lcp_itf_admin_state_change wC9w 1 0 =
      lcp_itf_pair_sync_state_hw wC9w (some 10) :=
  ⟨(claim_C9_admin_dispatch wC9w 2 0 lipC9child rfl rfl).1 rfl,
   (claim_C9_admin_dispatch wC9w 1 0 lipC9parent rfl rfl).2
     swC9parent rfl rfl rfl⟩

/-- Claim C10 (confirmed): on every table-bind event, whatever the event's
protocol family, the lookup of the host-side table device is issued with
`FIB_PROTOCOL_IP4`; and when the two families map the bound FIB index to
the same table id, the IPv4 and IPv6 events produce identical executions —
the event's family never influences which table record is found. -/
theorem claim_C10_table_find_ip4 (w : World) (proto : FibProto)
    (i nf old : Nat)
    (h : w.trace.all tableFindUsesIp4 = true) :
    (lcp_itf_ipX_table_bind w proto i nf old).trace.all tableFindUsesIp4 =
      true ∧
    (w.fibTableId nf FibProto.ip4 = w.fibTableId nf FibProto.ip6 →
      lcp_itf_ipX_table_bind w FibProto.ip4 i nf old =
        lcp_itf_ipX_table_bind w FibProto.ip6 i nf old) := by
  constructor
  · simp only [lcp_itf_ipX_table_bind]
    split
    · exact h
    · split
      · exact h
      · split
        · simp only [emit]
          split
          · simp [List.all_append, h, tableFindUsesIp4]
          · split
            · simp [List.all_append, h, tableFindUsesIp4]
            · split
              · simp [List.all_append, h, tableFindUsesIp4]
              · simp [List.all_append, h, tableFindUsesIp4]
        · simp [emit, List.all_append, h, tableFindUsesIp4]
  · intro h2
    simp only [lcp_itf_ipX_table_bind]
    rw [h2]

/-- Witness for C10 at the concrete table-bind: FIB index 100, table id 3,
host device `vpp-vrf3`. -/
theorem claim_C10_witness :
    (lcp_itf_ipX_table_bind wC10 FibProto.ip6 5 100 0).trace.all
      tableFindUsesIp4 = true ∧
    lcp_itf_ipX_table_bind wC10 FibProto.ip4 5 100 0 =
      lcp_itf_ipX_table_bind wC10 FibProto.ip6 5 100 0 :=
  ⟨(claim_C10_table_find_ip4 wC10 FibProto.ip6 5 100 0 rfl).1,
   (claim_C10_table_find_ip4 wC10 FibProto.ip4 5 100 0 rfl).2 rfl⟩

lemma definedBytes_map_some (l : List Nat) :
    definedBytes (l.map some) = some l := by
  induction l with
  | nil => rfl
  | cons b rest ih => simp [definedBytes, ih]

lemma parse_rtattrs_cons_eq (fuel : Nat) (c : Option Nat)
    (buf : List (Option Nat)) :
    parse_rtattrs (fuel + 1) (c :: buf) =
      (match readU16 (c :: buf) 0, readU16 (c :: buf) 2 with
       | some len, some ty =>
         if 4 ≤ len ∧ len ≤ (c :: buf).length then
           match definedBytes (((c :: buf).drop 4).take (len - 4)) with
           | some v =>
             (parse_rtattrs fuel ((c :: buf).drop (rta_align len))).map
               (fun rest => (len, ty, v) :: rest)
           | none => none
         else none
       | _, _ => none) := rfl

lemma drop_four_add (n : Nat) (a b c d : Option Nat)
    (t : List (Option Nat)) :
    List.drop (4 + n) (a :: b :: c :: d :: t) = List.drop n t := by
  rw [← List.drop_drop]
  rfl

lemma parse_rtattrs_attr (fuel L T : Nat) (v : List Nat)
    (rest : List (Option Nat))
    (hL : L = 4 + v.length) (hLb : L < 65536) (hT : T < 65536)
    (halign : rta_align L = L) :
    parse_rtattrs (fuel + 1)
      (some (L % 256) :: some (L / 256 % 256) :: some (T % 256) ::
        some (T / 256 % 256) :: (v.map some ++ rest)) =
      (parse_rtattrs fuel rest).map (fun r => (L, T, v) :: r) := by
  have e0 : readU16 (some (L % 256) :: some (L / 256 % 256) ::
      some (T % 256) :: some (T / 256 % 256) :: (v.map some ++ rest)) 0 =
      some L := by
    show some (L % 256 + 256 * (L / 256 % 256)) = some L
    congr 1
    omega
  have e2 : readU16 (some (L % 256) :: some (L / 256 % 256) ::
      some (T % 256) :: some (T / 256 % 256) :: (v.map some ++ rest)) 2 =
      some T := by
    show some (T % 256 + 256 * (T / 256 % 256)) = some T
    congr 1
    omega
  have hcond : 4 ≤ L ∧ L ≤ (some (L % 256) :: some (L / 256 % 256) ::
      some (T % 256) :: some (T / 256 % 256) ::
      (v.map some ++ rest)).length := by
    constructor
    · omega
    · simp
      omega
  have e3 : definedBytes (((some (L % 256) :: some (L / 256 % 256) ::
      some (T % 256) :: some (T / 256 % 256) ::
      (v.map some ++ rest)).drop 4).take (L - 4)) = some v := by
    show definedBytes ((v.map some ++ rest).take (L - 4)) = some v
    rw [show L - 4 = v.length by omega, ← List.length_map v some,
      List.take_left, definedBytes_map_some]
  have e4 : (some (L % 256) :: some (L / 256 % 256) :: some (T % 256) ::
      some (T / 256 % 256) :: (v.map some ++ rest)).drop (rta_align L) =
      rest := by
    rw [halign, hL, drop_four_add, ← List.length_map v some, List.drop_left]
  simp only [parse_rtattrs_cons_eq, e0, e2]
  rw [if_pos hcond]
  simp only [e3, e4]

lemma mod_or_ack_ne_zero (flags : Nat) :
    ((flags ||| NLM_F_ACK) % 65536) &&& NLM_F_ACK ≠ 0 := by
  intro h0
  have hbit : Nat.testBit ((flags ||| NLM_F_ACK) % 65536) 2 = true := by
    rw [show (65536 : Nat) = 2 ^ 16 from rfl, Nat.testBit_mod_two_pow]
    simp [Nat.testBit_lor, show Nat.testBit NLM_F_ACK 2 = true from by decide]
  have hz : Nat.testBit (((flags ||| NLM_F_ACK) % 65536) &&& NLM_F_ACK) 2 =
      true := by
    rw [Nat.testBit_land, hbit]
    simp [show Nat.testBit NLM_F_ACK 2 = true from by decide]
  rw [h0] at hz
  simp [Nat.zero_testBit] at hz


lemma parse_rtattrs_attr_last (fuel L T : Nat) (v : List Nat)
    (hL : L = 4 + v.length) (hLb : L < 65536) (hT : T < 65536)
    (halign : rta_align L = L) :
    parse_rtattrs (fuel + 1)
      (some (L % 256) :: some (L / 256 % 256) :: some (T % 256) ::
        some (T / 256 % 256) :: v.map some) =
      some [(L, T, v)] := by
  have h := parse_rtattrs_attr fuel L T v [] hL hLb hT halign
  rw [List.append_nil] at h
  have h0 : parse_rtattrs fuel [] = some [] := by cases fuel <;> rfl
  rw [h, h0]
  rfl

/-- Claim C8 (confirmed): every address delete message built by the module
carries the family (`AF_INET` at payload byte 0 for IPv4, `AF_INET6` for
IPv6), the prefix length and the owning interface's kernel index in its
fixed `ifaddrmsg` payload, followed by exactly two attributes —
`IFA_LOCAL` then `IFA_ADDRESS`, both holding the same address value of 4
(IPv4) or 16 (IPv6) bytes, each with its length prefix `RTA_LENGTH
(value-length)` computed before alignment padding; and every message built
by `vnet_netlink_msg_init` has the `NLM_F_ACK` acknowledgement-request bit
set in its flags field. -/
theorem claim_C8_addr_del_message :
    (∀ (ifindex : Nat) (addr : List Nat) (pfx_len : Nat),
      addr.length = 4 → pfx_len < 256 → ifindex < 4294967296 →
      readByte (vnet_netlink_del_ip4_addr_msg ifindex addr pfx_len) 16 =
        some AF_INET ∧
      readByte (vnet_netlink_del_ip4_addr_msg ifindex addr pfx_len) 17 =
        some pfx_len ∧
      readU32 (vnet_netlink_del_ip4_addr_msg ifindex addr pfx_len) 20 =
        some ifindex ∧
      parse_rtattrs
        (vnet_netlink_del_ip4_addr_msg ifindex addr pfx_len).length
        ((vnet_netlink_del_ip4_addr_msg ifindex addr pfx_len).drop
          (nlmsg_space 8)) =
        some [(RTA_LENGTH 4, IFA_LOCAL, addr),
          (RTA_LENGTH 4, IFA_ADDRESS, addr)] ∧
      (∃ f, readU16 (vnet_netlink_del_ip4_addr_msg ifindex addr pfx_len) 6 =
        some f ∧ f &&& NLM_F_ACK ≠ 0)) ∧
    (∀ (ifindex : Nat) (addr : List Nat) (pfx_len : Nat),
      addr.length = 16 → pfx_len < 256 → ifindex < 4294967296 →
      readByte (vnet_netlink_del_ip6_addr_msg ifindex addr pfx_len) 16 =
        some AF_INET6 ∧
      readByte (vnet_netlink_del_ip6_addr_msg ifindex addr pfx_len) 17 =
        some pfx_len ∧
      readU32 (vnet_netlink_del_ip6_addr_msg ifindex addr pfx_len) 20 =
        some ifindex ∧
      parse_rtattrs
        (vnet_netlink_del_ip6_addr_msg ifindex addr pfx_len).length
        ((vnet_netlink_del_ip6_addr_msg ifindex addr pfx_len).drop
          (nlmsg_space 8)) =
        some [(RTA_LENGTH 16, IFA_LOCAL, addr),
          (RTA_LENGTH 16, IFA_ADDRESS, addr)] ∧
      (∃ f, readU16 (vnet_netlink_del_ip6_addr_msg ifindex addr pfx_len) 6 =
        some f ∧ f &&& NLM_F_ACK ≠ 0)) ∧
    (∀ (ty flags : Nat) (payload : List Nat), ∃ f,
      readU16 (vnet_netlink_msg_init ty flags payload) 6 = some f ∧
      f &&& NLM_F_ACK ≠ 0) := by
  have hrep4 : List.replicate 4 (none : Option Nat) =
    [none, none, none, none] := rfl
  have hrep8 : List.replicate 8 (none : Option Nat) =
    [none, none, none, none, none, none, none, none] := rfl
  have hor5 : (1 : Nat) ||| 4 = 5 := by decide
  refine ⟨?_, ?_, ?_⟩
  · intro ifindex addr pfx_len h4 hpfx hidx
    have hlen : (vnet_netlink_del_ip4_addr_msg ifindex addr pfx_len).length =
        40 := by
      simp [vnet_netlink_del_ip4_addr_msg, vnet_netlink_msg_add_rtattr,
        vnet_netlink_msg_init, ifaddrmsg_bytes, u16le, u32le, h4,
        RTA_LENGTH, RTA_SPACE, rta_align, nlmsg_space, nlmsg_length,
        nlmsg_align, NLMSG_HDRLEN]
    have hm : vnet_netlink_del_ip4_addr_msg ifindex addr pfx_len =
        none :: none :: none :: none :: some 21 :: some 0 :: some 5 ::
        some 0 :: none :: none :: none :: none :: none :: none :: none ::
        none :: some 2 :: some (pfx_len % 256) :: some 0 :: some 0 ::
        some (ifindex % 256) :: some (ifindex / 256 % 256) ::
        some (ifindex / 65536 % 256) :: some (ifindex / 16777216 % 256) ::
        some 8 :: some 0 :: some 2 :: some 0 ::
        (addr.map some ++ (some 8 :: some 0 :: some 1 :: some 0 ::
          addr.map some)) := by
      simp [vnet_netlink_del_ip4_addr_msg, vnet_netlink_msg_add_rtattr,
        vnet_netlink_msg_init, ifaddrmsg_bytes, u16le, u32le, h4,
        RTA_LENGTH, RTA_SPACE, rta_align, nlmsg_space, nlmsg_length,
        nlmsg_align, NLMSG_HDRLEN, RTM_DELADDR, NLM_F_REQUEST, NLM_F_ACK,
        AF_INET, IFA_LOCAL, IFA_ADDRESS, hrep4, hrep8, hor5]
    refine ⟨?_, ?_, ?_, ?_, ⟨5, ?_, by decide⟩⟩
    · rw [hm]
      rfl
    · rw [hm]
      show (some (pfx_len % 256) : Option Nat) = some pfx_len
      rw [Nat.mod_eq_of_lt hpfx]
    · rw [hm]
      show some (ifindex % 256 + 256 * (ifindex / 256 % 256) +
        65536 * (ifindex / 65536 % 256) +
        16777216 * (ifindex / 16777216 % 256)) = some ifindex
      congr 1
      omega
    · rw [hlen, hm]
      show parse_rtattrs 40 (some 8 :: some 0 :: some 2 :: some 0 ::
        (addr.map some ++ (some 8 :: some 0 :: some 1 :: some 0 ::
          addr.map some))) =
        some [(RTA_LENGTH 4, IFA_LOCAL, addr),
          (RTA_LENGTH 4, IFA_ADDRESS, addr)]
      have h1 : parse_rtattrs 40 (some 8 :: some 0 :: some 2 :: some 0 ::
          (addr.map some ++ (some 8 :: some 0 :: some 1 :: some 0 ::
            addr.map some))) =
          (parse_rtattrs 39 (some 8 :: some 0 :: some 1 :: some 0 ::
            addr.map some)).map (fun r => (8, 2, addr) :: r) :=
        parse_rtattrs_attr 39 8 2 addr
          (some 8 :: some 0 :: some 1 :: some 0 :: addr.map some)
          (by omega) (by decide) (by decide) (by decide)
      have h2 : parse_rtattrs 39 (some 8 :: some 0 :: some 1 :: some 0 ::
          addr.map some) = some [(8, 1, addr)] :=
        parse_rtattrs_attr_last 38 8 1 addr (by omega) (by decide)
          (by decide) (by decide)
      rw [h1, h2]
      rfl
    · rw [hm]
      rfl
  · intro ifindex addr pfx_len h16 hpfx hidx
    have hlen : (vnet_netlink_del_ip6_addr_msg ifindex addr pfx_len).length =
        64 := by
      simp [vnet_netlink_del_ip6_addr_msg, vnet_netlink_msg_add_rtattr,
        vnet_netlink_msg_init, ifaddrmsg_bytes, u16le, u32le, h16,
        RTA_LENGTH, RTA_SPACE, rta_align, nlmsg_space, nlmsg_length,
        nlmsg_align, NLMSG_HDRLEN]
    have hm : vnet_netlink_del_ip6_addr_msg ifindex addr pfx_len =
        none :: none :: none :: none :: some 21 :: some 0 :: some 5 ::
        some 0 :: none :: none :: none :: none :: none :: none :: none ::
        none :: some 10 :: some (pfx_len % 256) :: some 0 :: some 0 ::
        some (ifindex % 256) :: some (ifindex / 256 % 256) ::
        some (ifindex / 65536 % 256) :: some (ifindex / 16777216 % 256) ::
        some 20 :: some 0 :: some 2 :: some 0 ::
        (addr.map some ++ (some 20 :: some 0 :: some 1 :: some 0 ::
          addr.map some)) := by
      simp [vnet_netlink_del_ip6_addr_msg, vnet_netlink_msg_add_rtattr,
        vnet_netlink_msg_init, ifaddrmsg_bytes, u16le, u32le, h16,
        RTA_LENGTH, RTA_SPACE, rta_align, nlmsg_space, nlmsg_length,
        nlmsg_align, NLMSG_HDRLEN, RTM_DELADDR, NLM_F_REQUEST, NLM_F_ACK,
        AF_INET6, IFA_LOCAL, IFA_ADDRESS, hrep4, hrep8, hor5]
    refine ⟨?_, ?_, ?_, ?_, ⟨5, ?_, by decide⟩⟩
    · rw [hm]
      rfl
    · rw [hm]
      show (some (pfx_len % 256) : Option Nat) = some pfx_len
      rw [Nat.mod_eq_of_lt hpfx]
    · rw [hm]
      show some (ifindex % 256 + 256 * (ifindex / 256 % 256) +
        65536 * (ifindex / 65536 % 256) +
        16777216 * (ifindex / 16777216 % 256)) = some ifindex
      congr 1
      omega
    · rw [hlen, hm]
      show parse_rtattrs 64 (some 20 :: some 0 :: some 2 :: some 0 ::
        (addr.map some ++ (some 20 :: some 0 :: some 1 :: some 0 ::
          addr.map some))) =
        some [(RTA_LENGTH 16, IFA_LOCAL, addr),
          (RTA_LENGTH 16, IFA_ADDRESS, addr)]
      have h1 : parse_rtattrs 64 (some 20 :: some 0 :: some 2 :: some 0 ::
          (addr.map some ++ (some 20 :: some 0 :: some 1 :: some 0 ::
            addr.map some))) =
          (parse_rtattrs 63 (some 20 :: some 0 :: some 1 :: some 0 ::
            addr.map some)).map (fun r => (20, 2, addr) :: r) :=
        parse_rtattrs_attr 63 20 2 addr
          (some 20 :: some 0 :: some 1 :: some 0 :: addr.map some)
          (by omega) (by decide) (by decide) (by decide)
      have h2 : parse_rtattrs 63 (some 20 :: some 0 :: some 1 :: some 0 ::
          addr.map some) = some [(20, 1, addr)] :=
        parse_rtattrs_attr_last 62 20 1 addr (by omega) (by decide)
          (by decide) (by decide)
      rw [h1, h2]
      rfl
    · rw [hm]
      rfl
  · intro ty flags payload
    refine ⟨(flags ||| NLM_F_ACK) % 65536, ?_, mod_or_ack_ne_zero flags⟩
    show some ((flags ||| NLM_F_ACK) % 256 +
      256 * ((flags ||| NLM_F_ACK) / 256 % 256)) =
      some ((flags ||| NLM_F_ACK) % 65536)
    congr 1
    omega

/-- Witness for C8 at the concrete scenario-C delete: IPv4 address
203.0.113.5/32 on kernel interface 42. -/
theorem claim_C8_witness :
    readByte (vnet_netlink_del_ip4_addr_msg 42 [203, 0, 113, 5] 32) 16 =
      some AF_INET ∧
    readByte (vnet_netlink_del_ip4_addr_msg 42 [203, 0, 113, 5] 32) 17 =
      some 32 ∧
    readU32 (vnet_netlink_del_ip4_addr_msg 42 [203, 0, 113, 5] 32) 20 =
      some 42 ∧
    parse_rtattrs
      (vnet_netlink_del_ip4_addr_msg 42 [203, 0, 113, 5] 32).length
      ((vnet_netlink_del_ip4_addr_msg 42 [203, 0, 113, 5] 32).drop
        (nlmsg_space 8)) =
      some [(RTA_LENGTH 4, IFA_LOCAL, [203, 0, 113, 5]),
        (RTA_LENGTH 4, IFA_ADDRESS, [203, 0, 113, 5])] ∧
    (∃ f, readU16 (vnet_netlink_del_ip4_addr_msg 42 [203, 0, 113, 5] 32) 6 =
      some f ∧ f &&& NLM_F_ACK ≠ 0) :=
  claim_C8_addr_del_message.1 42 [203, 0, 113, 5] 32 rfl (by decide)
    (by decide)
